import Mathlib

/-!
Verification development for the marketing-insight-pipeline repository.

This file gives a shallow embedding, in Lean, of the parts of the code that
the checked properties talk about:

* the semantic-model registry (`semantic_model.py`) and the two SQL builders
  (`sql_builder.py`);
* the query-tool layer (`query_tool.py`) over an optional warehouse client;
* the simple Kafka producer loop (`producer_simple.py`) as a step function on
  virtual time;
* the document-id generator (`pdf_processor.py`), with a full MD5
  implementation over naturals;
* the schema analyzer and DDL generator (`data_conversion_and_schema.py`);
* the RAG service's `delete_documents` (`rag_service.py`).

Python strings are Lean strings; Python `None`-or-string parameters are
`Option String` with Python truthiness made explicit (`None` and `""` are
falsy); machine arithmetic is `Nat` with explicit masking where the source
relies on 32-bit wraparound (MD5 only).  Fallible operations of external
clients are modelled as `Except` values.  A single quote character inside a
string literal is written `\x27` throughout.
-/

namespace MarketingPipeline

set_option maxRecDepth 100000

/-- Python truthiness of an optional string argument: `None` and the empty
string are falsy, every other string is truthy. -/
def strTruthy : Option String → Bool
  | none => false
  | some s => !s.isEmpty

/-- Association-list lookup mirroring Python `dict.get(k)` on an
insertion-ordered dict; the first matching key wins. -/
def alookup {β : Type} (k : String) : List (String × β) → Option β
  | [] => none
  | (k2, v) :: rest => if k = k2 then some v else alookup k rest

/-- Python `str(...)` rendering of a list of strings as it appears inside an
f-string, e.g. `[\x27a\x27, \x27b\x27]`. -/
def pyStrList (xs : List String) : String :=
  "[" ++ String.intercalate ", " (xs.map (fun s => "\x27" ++ s ++ "\x27")) ++ "]"

/-!
## Semantic model registry (`ai_agent/core/semantic_model.py`)

Each Python dict literal becomes a `SemanticModel` record; mapping fields keep
their insertion order as association lists, since the builders render
`list(dict.keys())` into error messages.  `dim_products_semantic` has no
`date_column` key, hence the `Option`.
-/

structure SemanticModel where
  table : String
  description : String
  actualColumns : List String
  metrics : List (String × String)
  dimensions : List (String × String)
  aliases : List (String × String)
  dateColumn : Option String
  primaryKey : String

def fct_sales_semantic : SemanticModel where
  table := "fct_sales"
  description := "Sales fact table with calculated financial metrics"
  actualColumns := ["transaction_id", "customer_id", "transaction_date", "product_sku",
    "quantity", "avg_price", "delivery_charges", "coupon_status", "gross_sales_amount",
    "net_sales_amount", "gst_amount", "total_amount", "discount_percentage",
    "discount_amount", "sale_size_category", "processed_at"]
  metrics := [
    ("total_net_sales", "SUM(net_sales_amount)"),
    ("total_gross_sales", "SUM(gross_sales_amount)"),
    ("total_quantity", "SUM(quantity)"),
    ("average_discount", "AVG(discount_percentage)"),
    ("total_gst", "SUM(gst_amount)"),
    ("total_delivery_charges", "SUM(delivery_charges)"),
    ("average_order_value", "AVG(total_amount)"),
    ("total_discount_amount", "SUM(discount_amount)"),
    ("transaction_count", "COUNT(DISTINCT transaction_id)"),
    ("total_revenue", "SUM(total_amount)")]
  dimensions := [
    ("sale_size_category", "sale_size_category"),
    ("month", "TO_CHAR(transaction_date, \x27YYYY-MM\x27)"),
    ("year", "EXTRACT(YEAR FROM transaction_date)"),
    ("quarter", "TO_CHAR(transaction_date, \x27YYYY-Q\x27)"),
    ("transaction_date", "transaction_date"),
    ("customer_id", "customer_id"),
    ("product_sku", "product_sku"),
    ("coupon_status", "coupon_status")]
  aliases := [
    ("customer_type", "customer_id"),
    ("product", "product_sku"),
    ("date", "transaction_date")]
  dateColumn := some "transaction_date"
  primaryKey := "transaction_id"

def fct_customer_segments_semantic : SemanticModel where
  table := "fct_customer_segments"
  description := "Customer segmentation facts with ML-driven segments and business metrics"
  actualColumns := ["customer_id", "location", "gender", "customer_tenure_months",
    "segment_id", "segment_name", "total_orders", "total_quantity", "total_revenue",
    "first_purchase_date", "last_purchase_date", "days_since_last_purchase",
    "customer_lifetime_days", "avg_order_value", "daily_revenue_rate",
    "activity_status", "updated_at"]
  metrics := [
    ("total_customers", "COUNT(DISTINCT customer_id)"),
    ("avg_revenue_per_customer", "AVG(total_revenue)"),
    ("avg_order_count", "AVG(total_orders)"),
    ("avg_days_since_purchase", "AVG(days_since_last_purchase)"),
    ("customer_profitability", "AVG(total_revenue)"),
    ("total_customer_revenue", "SUM(total_revenue)")]
  dimensions := [
    ("segment_name", "segment_name"),
    ("segment_id", "segment_id"),
    ("activity_status", "activity_status"),
    ("location", "location"),
    ("gender", "gender"),
    ("customer_tenure_months", "customer_tenure_months")]
  aliases := [
    ("customer_type", "segment_name"),
    ("customer_segment", "segment_name"),
    ("customer_category", "segment_name"),
    ("profitability", "avg_revenue_per_customer"),
    ("revenue", "total_revenue")]
  dateColumn := some "updated_at"
  primaryKey := "customer_id"

def dim_products_semantic : SemanticModel where
  table := "dim_products"
  description := "Product dimension table with product groups and tax information"
  actualColumns := ["product_sku", "product_description", "product_category",
    "gst_rate", "product_group"]
  metrics := [
    ("product_count", "COUNT(DISTINCT product_sku)"),
    ("avg_gst_rate", "AVG(gst_rate)")]
  dimensions := [
    ("product_group", "product_group"),
    ("product_category", "product_category"),
    ("product_sku", "product_sku"),
    ("product_description", "product_description")]
  aliases := [
    ("product_type", "product_group"),
    ("category", "product_category"),
    ("product", "product_sku")]
  dateColumn := none
  primaryKey := "product_sku"

def stg_bitcoin_semantic : SemanticModel where
  table := "dbt_skamra_streaming.stg_bitcoin"
  description := "Bitcoin price streaming data with volatility analysis"
  actualColumns := ["id", "source", "price", "change_24h", "event_timestamp",
    "ingestion_timestamp", "volatility_category", "price_date", "price_hour",
    "day_of_week", "previous_price", "is_valid_record", "dbt_updated_at"]
  metrics := [
    ("avg_price", "AVG(price)"),
    ("max_price", "MAX(price)"),
    ("min_price", "MIN(price)"),
    ("current_price", "price"),
    ("price_volatility", "STDDEV(change_24h)"),
    ("price_records", "COUNT(*)"),
    ("avg_change", "AVG(change_24h)"),
    ("max_change", "MAX(change_24h)"),
    ("min_change", "MIN(change_24h)")]
  dimensions := [
    ("volatility_category", "volatility_category"),
    ("price_date", "price_date"),
    ("price_hour", "price_hour"),
    ("day_of_week", "day_of_week"),
    ("source", "source"),
    ("date", "price_date"),
    ("hour", "price_hour")]
  aliases := [
    ("bitcoin_price", "avg_price"),
    ("btc_price", "avg_price"),
    ("price", "avg_price"),
    ("volatility", "volatility_category"),
    ("change", "avg_change"),
    ("daily_change", "change_24h"),
    ("date", "price_date"),
    ("time", "price_hour")]
  dateColumn := some "event_timestamp"
  primaryKey := "id"

/-- Registry of all available semantic models, in source order. -/
def SEMANTIC_MODELS : List (String × SemanticModel) := [
  ("fct_sales", fct_sales_semantic),
  ("fct_customer_segments", fct_customer_segments_semantic),
  ("dim_products", dim_products_semantic),
  ("stg_bitcoin", stg_bitcoin_semantic)]

/-!
## SQL builders (`ai_agent/core/tools/sql_builder.py`)

Filter values reach the builders as decoded JSON, so a value is a string, a
list, or some other JSON scalar; the `other` constructor carries the
`str(value)` rendering of that scalar (e.g. `"5"` for the int `5`), since the
source interpolates `f"{column} = {value}"` directly.
-/

inductive FilterValue where
  | str (v : String)
  | list (vs : List String)
  | other (rendered : String)
deriving DecidableEq, Repr

/-- One WHERE predicate for one `filters` entry, mirroring the three-way
`isinstance` dispatch shared verbatim by both builders: a string value is
quoted, a list becomes an IN list with each element quoted and joined by
`\x27, \x27`, and any other value is interpolated unquoted. -/
def renderFilter : String × FilterValue → String
  | (column, FilterValue.str v) => column ++ " = \x27" ++ v ++ "\x27"
  | (column, FilterValue.list vs) =>
      column ++ " IN (\x27" ++ String.intercalate "\x27, \x27" vs ++ "\x27)"
  | (column, FilterValue.other v) => column ++ " = " ++ v

/-- The `for column, value in filters.items()` loop of both builders: one
rendered predicate per entry, in order.  A `None` filters argument behaves
like the empty list. -/
def filterClauses (filters : List (String × FilterValue)) : List String :=
  filters.map renderFilter

/-- Grouping resolution shared by both builders: `group_by` is consulted only
when truthy, resolved through the `dimensions` map with the raw name as
fallback, and the resulting expression is used only when itself truthy.
Returns the pair (requested name, resolved SQL expression). -/
def resolveGrouping (dims : List (String × String)) (group_by : Option String) :
    Option (String × String) :=
  match group_by with
  | none => none
  | some g =>
    if g.isEmpty then none
    else
      let ge := (alookup g dims).getD g
      if ge.isEmpty then none else some (g, ge)

/-- Final assembly shared by both builders: clauses joined by newlines with
empty parts dropped. -/
def joinQueryParts (parts : List String) : String :=
  String.intercalate "\n" (parts.filter (fun p => !p.isEmpty))

/-- Embedding of `build_sales_query`.  The `month` filter applies only when no
complete date range is given, exactly as in the source's `if start_date and
end_date / elif month` chain. -/
def build_sales_query (metric : String)
    (group_by start_date end_date month : Option String)
    (filters : List (String × FilterValue)) : String :=
  let semantic_model := fct_sales_semantic
  let table := semantic_model.table
  let metric_expr := (alookup metric semantic_model.metrics).getD ""
  if metric_expr.isEmpty then
    "Error: Metric \x27" ++ metric ++ "\x27 not supported. Available metrics: " ++
      pyStrList (semantic_model.metrics.map Prod.fst)
  else
    let grouping := resolveGrouping semantic_model.dimensions group_by
    let select_parts :=
      (match grouping with
        | some (g, ge) => [ge ++ " AS " ++ g]
        | none => []) ++ [metric_expr ++ " AS " ++ metric]
    let select_clause := "SELECT " ++ String.intercalate ", " select_parts
    let date_column := semantic_model.dateColumn.getD ""
    let date_clauses :=
      if strTruthy start_date && strTruthy end_date then
        [date_column ++ " BETWEEN \x27" ++ start_date.getD "" ++ "\x27 AND \x27" ++
          end_date.getD "" ++ "\x27"]
      else if strTruthy month then
        ["TO_CHAR(" ++ date_column ++ ", \x27YYYY-MM\x27) = \x27" ++ month.getD "" ++ "\x27"]
      else []
    let where_clauses := date_clauses ++ filterClauses filters
    let where_clause :=
      if where_clauses.isEmpty then ""
      else "WHERE " ++ String.intercalate " AND " where_clauses
    let group_clause :=
      match grouping with
      | some (_, ge) => "GROUP BY " ++ ge
      | none => ""
    let order_clause :=
      match grouping with
      | some (_, ge) => "ORDER BY " ++ ge
      | none => ""
    joinQueryParts [select_clause, "FROM " ++ table, where_clause, group_clause, order_clause]

/-- Python truthiness of the optional integer `limit` argument: `None` and
`0` are falsy. -/
def limitClause : Option Int → String
  | none => ""
  | some n => if n = 0 then "" else "LIMIT " ++ toString n

/-- Embedding of `build_generic_query`.  Unlike the sales builder there is no
`month` parameter at all, and the date range is applied only when the table's
semantic model carries a `date_column` key. -/
def build_generic_query (table_name metric : String)
    (group_by start_date end_date : Option String)
    (filters : List (String × FilterValue)) (limit : Option Int) : String :=
  match alookup table_name SEMANTIC_MODELS with
  | none =>
    "Error: Table \x27" ++ table_name ++ "\x27 not found. Available tables: " ++
      pyStrList (SEMANTIC_MODELS.map Prod.fst)
  | some semantic_model =>
    let table := semantic_model.table
    let metric_expr := (alookup metric semantic_model.metrics).getD ""
    if metric_expr.isEmpty then
      "Error: Metric \x27" ++ metric ++ "\x27 not supported for " ++ table_name ++
        ". Available metrics: " ++ pyStrList (semantic_model.metrics.map Prod.fst)
    else
      let grouping := resolveGrouping semantic_model.dimensions group_by
      let select_parts :=
        (match grouping with
          | some (g, ge) => [ge ++ " AS " ++ g]
          | none => []) ++ [metric_expr ++ " AS " ++ metric]
      let select_clause := "SELECT " ++ String.intercalate ", " select_parts
      let date_clauses :=
        match semantic_model.dateColumn with
        | some date_column =>
          if strTruthy start_date && strTruthy end_date then
            [date_column ++ " BETWEEN \x27" ++ start_date.getD "" ++ "\x27 AND \x27" ++
              end_date.getD "" ++ "\x27"]
          else []
        | none => []
      let where_clauses := date_clauses ++ filterClauses filters
      let where_clause :=
        if where_clauses.isEmpty then ""
        else "WHERE " ++ String.intercalate " AND " where_clauses
      let group_clause :=
        match grouping with
        | some (_, ge) => "GROUP BY " ++ ge
        | none => ""
      let order_clause :=
        match grouping with
        | some (_, ge) => "ORDER BY " ++ ge
        | none => ""
      joinQueryParts [select_clause, "FROM " ++ table, where_clause, group_clause,
        order_clause, limitClause limit]

/-- Embedding of `get_available_metrics`: metric names of a registered table,
else the empty list. -/
def get_available_metrics (table_name : String) : List String :=
  match alookup table_name SEMANTIC_MODELS with
  | some m => m.metrics.map Prod.fst
  | none => []

/-- Embedding of `get_available_dimensions`: dimension names of a registered
table, else the empty list. -/
def get_available_dimensions (table_name : String) : List String :=
  match alookup table_name SEMANTIC_MODELS with
  | some m => m.dimensions.map Prod.fst
  | none => []

/-!
## Query tool layer (`ai_agent/core/tools/query_tool.py`)

The module-level Snowflake client is `None` until lazily constructed, and
stays `None` if construction fails; tools receive it here as an explicit
`Option SnowflakeClient` argument.  A client's operations may raise, which is
modelled by `Except String` carrying `str(e)`; result rows are modelled as the
already-rendered `str(dict(row))` strings the tool prints.  `json.loads` on
the `additional_filters` argument is a third-party boundary, modelled by
`FiltersArg`: the empty argument, an argument that fails to decode (carrying
the raw text for the error message), or the decoded mapping.
-/

structure SnowflakeClient where
  executeQuery : String → Except String (List String)
  testConnResult : Except String Bool

inductive FiltersArg where
  | empty
  | invalid (raw : String)
  | parsed (fs : List (String × FilterValue))

/-- The literal returned by every client-using tool when the module-level
client is uninitialized. -/
def notConfiguredMsg : String :=
  "Error: Snowflake client not configured. Please check connection settings."

/-- Result formatting shared verbatim by `run_sales_query` and
`run_generic_query`: empty results, a capped 20-row listing, and an overflow
suffix, always alongside the executed SQL. -/
def formatQueryResults (query : String) (results : List String) : String :=
  if results.isEmpty then
    "Query executed successfully but returned no results.\n\nExecuted query:\n" ++ query
  else
    let summary := "Found " ++ toString results.length ++ " result(s). Showing first " ++
      toString (min results.length 20) ++ ":\n" ++ String.intercalate "\n" (results.take 20)
    let summary :=
      if results.length > 20 then
        summary ++ "\n... and " ++ toString (results.length - 20) ++ " more results"
      else summary
    "Query executed successfully!\n\nExecuted query:\n" ++ query ++ "\n\nResults:\n" ++ summary

/-- Embedding of the `run_sales_query` tool.  The uninitialized-client check
comes first, before any filter parsing or query building. -/
def run_sales_query (client : Option SnowflakeClient) (metric : String)
    (group_by start_date end_date month : String)
    (additional_filters : FiltersArg) : String :=
  match client with
  | none => notConfiguredMsg
  | some c =>
    match additional_filters with
    | FiltersArg.invalid raw => "Error: Invalid JSON format in additional_filters: " ++ raw
    | af =>
      let filters := match af with | FiltersArg.parsed fs => fs | _ => []
      let query := build_sales_query metric
        (if group_by.isEmpty then none else some group_by)
        (if start_date.isEmpty then none else some start_date)
        (if end_date.isEmpty then none else some end_date)
        (if month.isEmpty then none else some month) filters
      if query.startsWith "Error:" then query
      else
        match c.executeQuery query with
        | Except.error e => "Error executing query: " ++ e
        | Except.ok results => formatQueryResults query results

/-- Embedding of the `run_generic_query` tool; `limit` defaults to 100 at the
Python signature and is always forwarded to the builder. -/
def run_generic_query (client : Option SnowflakeClient) (table_name metric : String)
    (group_by start_date end_date : String)
    (additional_filters : FiltersArg) (limit : Int) : String :=
  match client with
  | none => notConfiguredMsg
  | some c =>
    match additional_filters with
    | FiltersArg.invalid raw => "Error: Invalid JSON format in additional_filters: " ++ raw
    | af =>
      let filters := match af with | FiltersArg.parsed fs => fs | _ => []
      let query := build_generic_query table_name metric
        (if group_by.isEmpty then none else some group_by)
        (if start_date.isEmpty then none else some start_date)
        (if end_date.isEmpty then none else some end_date) filters (some limit)
      if query.startsWith "Error:" then query
      else
        match c.executeQuery query with
        | Except.error e => "Error executing query: " ++ e
        | Except.ok results => formatQueryResults query results

/-- Embedding of the `get_table_schema_info` tool.  Note that the source body
never reads the module-level Snowflake client: it works purely off the
semantic registry, so no client argument appears here, and the body cannot
raise.  Its not-found message names only three tables, verbatim from the
source. -/
def get_table_schema_info (table_name : String) : String :=
  let metrics := get_available_metrics table_name
  let dimensions := get_available_dimensions table_name
  if metrics.isEmpty && dimensions.isEmpty then
    "Table \x27" ++ table_name ++
      "\x27 not found in semantic models. Available tables: fct_sales, fct_customer_segments, dim_products"
  else
    "Schema information for " ++ table_name ++ ":\n\n" ++
    "Available Metrics:\n" ++ String.intercalate "\n" (metrics.map (fun m => "- " ++ m)) ++
    "\n\n" ++
    "Available Dimensions:\n" ++
    String.intercalate "\n" (dimensions.map (fun d => "- " ++ d)) ++ "\n"

/-- Embedding of the `test_snowflake_connection` tool. -/
def test_snowflake_connection (client : Option SnowflakeClient) : String :=
  match client with
  | none => notConfiguredMsg
  | some c =>
    match c.testConnResult with
    | Except.ok true => "Snowflake connection test successful!"
    | Except.ok false => "Snowflake connection test failed."
    | Except.error e => "Connection test error: " ++ e

/-!
## Simple producer loop (`kafka_streaming/producer_simple.py`)

`SimpleDataProducer.run` is simulated on a virtual clock that starts at 0 (the
initial value of `last_news_fetch`).  Each loop iteration, at virtual time
`t`, fetches Bitcoin unconditionally and fetches news exactly when
`t - last_news_fetch >= 90`, updating `last_news_fetch` to `t` in that case;
the loop then sleeps 30 seconds.  All fetches are assumed to succeed (note
the source updates `last_news_fetch` after the attempt whether or not
`get_news_data` returned data).  Clock values are naturals; the subtraction
is fine because the clock is monotone and `last_news_fetch` is always a past
clock value.
-/

structure ProducerState where
  lastNewsFetch : Nat
  bitcoinFetches : List Nat
  newsFetches : List Nat
deriving DecidableEq, Repr

/-- One iteration of the producer loop body at virtual time `t`. -/
def producerStep (s : ProducerState) (t : Nat) : ProducerState :=
  let s := { s with bitcoinFetches := s.bitcoinFetches ++ [t] }
  if 90 ≤ t - s.lastNewsFetch then
    { s with newsFetches := s.newsFetches ++ [t], lastNewsFetch := t }
  else s

/-- Iteration times of a loop with the given period within a run of the given
duration: all multiples of the period below the duration (the body runs first,
then sleeps). -/
def loopTimes (duration period : Nat) : List Nat :=
  (List.range duration).filter (fun t => t % period == 0)

/-- The producer state after a simulated run of the given duration with the
given loop period, starting from `last_news_fetch = 0` and no fetches. -/
def producerRun (duration period : Nat) : ProducerState :=
  (loopTimes duration period).foldl producerStep ⟨0, [], []⟩

/-!
## MD5 and the document id generator (`ai_agent/rag/pdf_processor.py`)

`generate_document_id` hashes the f-string `"{pdf_path}_{mtime}_{size}"` with
`hashlib.md5` and returns the lowercase hex digest.  MD5 (RFC 1321) is
implemented here in full over `Nat` with explicit 32-bit masking; strings are
encoded to bytes as UTF-8, matching Python's `str.encode()`.
-/

def mask32 (x : Nat) : Nat := x % 4294967296

def add32 (a b : Nat) : Nat := mask32 (a + b)

def not32 (x : Nat) : Nat := 4294967295 ^^^ x

def rotl32 (x n : Nat) : Nat := mask32 ((x <<< n) ||| (x >>> (32 - n)))

/-- UTF-8 encoding of one code point, as a list of byte values. -/
def utf8EncodeChar (c : Nat) : List Nat :=
  if c < 128 then [c]
  else if c < 2048 then [192 ||| (c >>> 6), 128 ||| (c &&& 63)]
  else if c < 65536 then
    [224 ||| (c >>> 12), 128 ||| ((c >>> 6) &&& 63), 128 ||| (c &&& 63)]
  else
    [240 ||| (c >>> 18), 128 ||| ((c >>> 12) &&& 63), 128 ||| ((c >>> 6) &&& 63),
      128 ||| (c &&& 63)]

/-- The UTF-8 bytes of a string, Python's `s.encode()`. -/
def strBytes (s : String) : List Nat :=
  (s.toList.map (fun c => utf8EncodeChar c.toNat)).flatten

/-- Little-endian byte rendering of a natural, `n` bytes wide. -/
def leBytes : Nat → Nat → List Nat
  | 0, _ => []
  | n + 1, x => (x % 256) :: leBytes n (x / 256)

/-- MD5 padding: a 0x80 byte, zeros to 56 mod 64, then the bit length as 8
little-endian bytes. -/
def md5Pad (msg : List Nat) : List Nat :=
  let zeros := (119 - msg.length % 64) % 64
  msg ++ [128] ++ List.replicate zeros 0 ++ leBytes 8 (8 * msg.length)

/-- Group a byte list into 32-bit little-endian words. -/
def leWords : List Nat → List Nat
  | b0 :: b1 :: b2 :: b3 :: rest =>
      (b0 + 256 * (b1 + 256 * (b2 + 256 * b3))) :: leWords rest
  | _ => []

/-- Split padded bytes into 16-word blocks. -/
def md5Blocks (bytes : List Nat) : List (List Nat) :=
  (List.range (bytes.length / 64)).map (fun i => leWords ((bytes.drop (64 * i)).take 64))

/-- The 64 MD5 sine-derived round constants. -/
def md5K : List Nat := [
  3614090360, 3905402710, 606105819, 3250441966, 4118548399, 1200080426, 2821735955, 4249261313,
  1770035416, 2336552879, 4294925233, 2304563134, 1804603682, 4254626195, 2792965006, 1236535329,
  4129170786, 3225465664, 643717713, 3921069994, 3593408605, 38016083, 3634488961, 3889429448,
  568446438, 3275163606, 4107603335, 1163531501, 2850285829, 4243563512, 1735328473, 2368359562,
  4294588738, 2272392833, 1839030562, 4259657740, 2763975236, 1272893353, 4139469664, 3200236656,
  681279174, 3936430074, 3572445317, 76029189, 3654602809, 3873151461, 530742520, 3299628645,
  4096336452, 1126891415, 2878612391, 4237533241, 1700485571, 2399980690, 4293915773, 2240044497,
  1873313359, 4264355552, 2734768916, 1309151649, 4149444226, 3174756917, 718787259, 3951481745]

/-- The 64 MD5 per-round left-rotation amounts. -/
def md5S : List Nat := [
  7, 12, 17, 22, 7, 12, 17, 22, 7, 12, 17, 22, 7, 12, 17, 22,
  5, 9, 14, 20, 5, 9, 14, 20, 5, 9, 14, 20, 5, 9, 14, 20,
  4, 11, 16, 23, 4, 11, 16, 23, 4, 11, 16, 23, 4, 11, 16, 23,
  6, 10, 15, 21, 6, 10, 15, 21, 6, 10, 15, 21, 6, 10, 15, 21]

/-- The MD5 nonlinear function for round `i` applied to `(b, c, d)`. -/
def md5F (i b c d : Nat) : Nat :=
  if i < 16 then (b &&& c) ||| (not32 b &&& d)
  else if i < 32 then (d &&& b) ||| (not32 d &&& c)
  else if i < 48 then b ^^^ c ^^^ d
  else c ^^^ (b ||| not32 d)

/-- The MD5 message-word index for round `i`. -/
def md5G (i : Nat) : Nat :=
  if i < 16 then i
  else if i < 32 then (5 * i + 1) % 16
  else if i < 48 then (3 * i + 5) % 16
  else (7 * i) % 16

/-- One MD5 round over the state `(a, b, c, d)` with message block `M`. -/
def md5Round (M : List Nat) (st : Nat × Nat × Nat × Nat) (i : Nat) :
    Nat × Nat × Nat × Nat :=
  let (a, b, c, d) := st
  let fv := add32 (add32 a (md5F i b c d)) (add32 (md5K.getD i 0) (M.getD (md5G i) 0))
  (d, add32 b (rotl32 fv (md5S.getD i 0)), b, c)

/-- Process one 16-word block: 64 rounds, then add the block result into the
running state. -/
def md5ProcessBlock (st : Nat × Nat × Nat × Nat) (M : List Nat) :
    Nat × Nat × Nat × Nat :=
  let (a, b, c, d) := (List.range 64).foldl (md5Round M) st
  (add32 st.1 a, add32 st.2.1 b, add32 st.2.2.1 c, add32 st.2.2.2 d)

def md5InitState : Nat × Nat × Nat × Nat := (1732584193, 4023233417, 2562383102, 271733878)

def hexDigitChar (n : Nat) : Char := "0123456789abcdef".toList.getD n (Char.ofNat 48)

/-- Two lowercase hex digits of a byte value. -/
def byteHex (b : Nat) : String :=
  String.mk [hexDigitChar (b / 16), hexDigitChar (b % 16)]

/-- Hex rendering of a 32-bit word, least-significant byte first, as in an MD5
digest. -/
def wordLEHex (w : Nat) : String :=
  byteHex (w % 256) ++ byteHex (w / 256 % 256) ++ byteHex (w / 65536 % 256) ++
    byteHex (w / 16777216 % 256)

/-- The lowercase MD5 hex digest of a string, Python's
`hashlib.md5(s.encode()).hexdigest()`. -/
def md5Hex (s : String) : String :=
  let st := (md5Blocks (md5Pad (strBytes s))).foldl md5ProcessBlock md5InitState
  wordLEHex st.1 ++ wordLEHex st.2.1 ++ wordLEHex st.2.2.1 ++ wordLEHex st.2.2.2

/-- Embedding of `PDFProcessor.generate_document_id`: the MD5 hex digest of
`f"{pdf_path}_{file_stat.st_mtime}_{file_stat.st_size}"`.  The modification
time and size arrive here as the strings Python's f-string renders them to
(e.g. `"1700000000.0"` for the float mtime, `"1024"` for the int size). -/
def generate_document_id (pdf_path mtimeStr sizeStr : String) : String :=
  md5Hex (pdf_path ++ "_" ++ mtimeStr ++ "_" ++ sizeStr)

/-!
## Schema analyzer (`data_ingestion/data_conversion_and_schema.py`)

A pandas column is modelled by its dtype and its cells; a cell is `none` for a
null (NaN) and otherwise the `str(...)` rendering of the value.  The dtype
constructors cover exactly the dtype names the source tests for, with `other`
for everything else.  `astype(str)` renders a null cell as the string `"nan"`,
which therefore takes part in the max-length computation, and `.max()` of an
empty series is NaN, which the source replaces by 1.  The float-valued
`null_percentage` field is informational only and is not modelled.
-/

inductive PandasDtype where
  | object | int64 | int32 | int16 | int8 | float64 | float32 | datetime64 | bool | other
deriving DecidableEq, Repr

structure PdColumn where
  name : String
  dtype : PandasDtype
  cells : List (Option String)
deriving DecidableEq, Repr

structure PdDataFrame where
  nrows : Nat
  cols : List PdColumn
deriving DecidableEq, Repr

/-- Rendering of one cell by `.astype(str)`: a null becomes `"nan"`. -/
def cellStr : Option String → String
  | some s => s
  | none => "nan"

/-- `df[column].isnull().sum()`. -/
def nullCount (c : PdColumn) : Nat := c.cells.countP (fun x => x.isNone)

/-- `df[column].astype(str).str.len().max()`, with the source's NaN-to-1
replacement for an empty column. -/
def maxStrLength (c : PdColumn) : Nat :=
  if c.cells.isEmpty then 1
  else (c.cells.map (fun x => (cellStr x).length)).foldl Nat.max 0

/-- `df[column].nunique()`: distinct non-null values. -/
def nuniqueCount (c : PdColumn) : Nat :=
  ((c.cells.filterMap id).dedup).length

/-- `df[column].dropna().head(3).tolist()`. -/
def sampleValues (c : PdColumn) : List String :=
  (c.cells.filterMap id).take 3

/-- Python `str.upper()` for the ASCII names this pipeline handles:
character-wise upper-casing. -/
def pyUpper (s : String) : String := String.mk (s.data.map Char.toUpper)

/-- The column-name normalization applied by `analyze_schema`:
`column.replace(\x27 \x27, \x27_\x27).replace(\x27-\x27, \x27_\x27).upper()`.  Both replacements
target single characters, so they are rendered character-wise. -/
def normalizeColName (s : String) : String :=
  pyUpper (String.mk (s.data.map (fun c => if c = ' ' then '_' else if c = '-' then '_' else c)))

/-- The Snowflake type inference chain of `analyze_schema`, in source order:
object, the integer dtypes, the float dtypes, datetime-like, bool, else
VARIANT. -/
def snowflakeType (c : PdColumn) : String :=
  match c.dtype with
  | PandasDtype.object => "VARCHAR(" ++ toString (maxStrLength c) ++ ")"
  | PandasDtype.int64 | PandasDtype.int32 | PandasDtype.int16 | PandasDtype.int8 => "NUMBER"
  | PandasDtype.float64 | PandasDtype.float32 => "FLOAT"
  | PandasDtype.datetime64 => "TIMESTAMP"
  | PandasDtype.bool => "BOOLEAN"
  | PandasDtype.other => "VARIANT"

structure ColInfo where
  column_name : String
  null_count : Nat
  unique_values : Nat
  sample_values : List String
  snowflake_type : String
deriving DecidableEq, Repr

structure SchemaInfo where
  table_name : String
  total_rows : Nat
  total_columns : Nat
  columns : List (String × ColInfo)
deriving DecidableEq, Repr

/-- The per-column record built inside `analyze_schema`'s loop. -/
def analyzeColumn (c : PdColumn) : ColInfo where
  column_name := normalizeColName c.name
  null_count := nullCount c
  unique_values := nuniqueCount c
  sample_values := sampleValues c
  snowflake_type := snowflakeType c

/-- Embedding of `DataConversionAndSchema.analyze_schema`. -/
def analyze_schema (df : PdDataFrame) (table_name : String) : SchemaInfo where
  table_name := pyUpper table_name
  total_rows := df.nrows
  total_columns := df.cols.length
  columns := df.cols.map (fun c => (c.name, analyzeColumn c))

/-- One rendered column line of the generated DDL, including the
`NULL`/`NOT NULL` marker chosen from the observed null count. -/
def ddlColumnLine (ci : ColInfo) : String :=
  "    " ++ ci.column_name ++ " " ++ ci.snowflake_type ++ " " ++
    (if ci.null_count > 0 then "NULL" else "NOT NULL")

/-- Embedding of `DataConversionAndSchema.generate_snowflake_ddl`. -/
def generate_snowflake_ddl (si : SchemaInfo) : String :=
  "CREATE OR REPLACE TABLE " ++ si.table_name ++ " (\n" ++
    String.intercalate ",\n" (si.columns.map (fun p => ddlColumnLine p.2)) ++ "\n);"

/-!
## RAG service deletion (`ai_agent/rag/rag_service.py`)

`RAGService.delete_documents` never raises: its whole body is wrapped in a
try/except that renders any exception into a failure result.  The only vector
store call it can make is `delete_all`, modelled as an `Except String Bool`
supplied by the environment (exception message or boolean success); the action
actually performed on the store is reported alongside the result.  A `doc_id`
argument of `None` is `none` here, and Python truthiness makes the empty
string fall through to the must-specify branch.
-/

structure DeleteResult where
  success : Bool
  message : String
deriving DecidableEq, Repr

inductive StoreAction where
  | noAction
  | deletedAll (ns : String)
deriving DecidableEq, Repr

/-- Embedding of `RAGService.delete_documents`, returning the result dict and
the action performed on the vector store. -/
def delete_documents (deleteAllOutcome : Except String Bool)
    (doc_id : Option String) (ns : String) (delete_all : Bool) :
    DeleteResult × StoreAction :=
  if delete_all then
    match deleteAllOutcome with
    | Except.error e =>
        ({ success := false, message := "Error deleting documents: " ++ e },
          StoreAction.deletedAll ns)
    | Except.ok success =>
      let message := "Deleted all documents" ++
        (if !ns.isEmpty then " from namespace " ++ ns else "")
      if success then ({ success := true, message := message }, StoreAction.deletedAll ns)
      else ({ success := false, message := "Deletion failed" }, StoreAction.deletedAll ns)
  else if strTruthy doc_id then
    ({ success := false,
       message := "Individual document deletion requires additional implementation" },
      StoreAction.noAction)
  else
    ({ success := false, message := "Must specify either doc_id or delete_all=True" },
      StoreAction.noAction)

/-!
## Theorems
-/

/-- Claim C1, counterexample: the claimed fragment
`TO_CHAR(transaction_date,\x27YYYY-MM\x27) AS month` (no space after the comma)
does not occur in the query `build_sales_query` produces for the claimed
arguments, because the registered dimension expression is
`TO_CHAR(transaction_date, \x27YYYY-MM\x27)` with a space after the comma. -/
theorem C1_counterexample :
    ¬ ("TO_CHAR(transaction_date,\x27YYYY-MM\x27) AS month".toList <:+:
      (build_sales_query "total_net_sales" (some "month") (some "2024-01-01")
        (some "2024-01-31") none []).toList) := by
  decide

/-- Claim C1 as amended (a space after the comma in the `TO_CHAR` dimension
expression): the query built for `total_net_sales` grouped by month over the
January 2024 date range is exactly the expected SELECT, and it contains the
grouping select item, the metric select item, the BETWEEN date predicate, and
GROUP BY / ORDER BY clauses on the same grouping expression. -/
theorem C1_amended_query_shape :
    build_sales_query "total_net_sales" (some "month") (some "2024-01-01")
        (some "2024-01-31") none [] =
      "SELECT TO_CHAR(transaction_date, \x27YYYY-MM\x27) AS month, SUM(net_sales_amount) AS total_net_sales\nFROM fct_sales\nWHERE transaction_date BETWEEN \x272024-01-01\x27 AND \x272024-01-31\x27\nGROUP BY TO_CHAR(transaction_date, \x27YYYY-MM\x27)\nORDER BY TO_CHAR(transaction_date, \x27YYYY-MM\x27)" ∧
    ("TO_CHAR(transaction_date, \x27YYYY-MM\x27) AS month".toList <:+:
      (build_sales_query "total_net_sales" (some "month") (some "2024-01-01")
        (some "2024-01-31") none []).toList) ∧
    ("SUM(net_sales_amount) AS total_net_sales".toList <:+:
      (build_sales_query "total_net_sales" (some "month") (some "2024-01-01")
        (some "2024-01-31") none []).toList) ∧
    ("WHERE transaction_date BETWEEN \x272024-01-01\x27 AND \x272024-01-31\x27".toList <:+:
      (build_sales_query "total_net_sales" (some "month") (some "2024-01-01")
        (some "2024-01-31") none []).toList) ∧
    ("GROUP BY TO_CHAR(transaction_date, \x27YYYY-MM\x27)\nORDER BY TO_CHAR(transaction_date, \x27YYYY-MM\x27)".toList <:+:
      (build_sales_query "total_net_sales" (some "month") (some "2024-01-01")
        (some "2024-01-31") none []).toList) := by
  refine ⟨by decide, by decide, by decide, by decide, by decide⟩

/-- Claim C2, counterexample: for a metric missing from `dim_products`,
`build_generic_query` does not return the claimed string
`Error: Metric \x27...\x27 not supported. Available metrics: [...]` — its message
inserts ` for dim_products` after `not supported`. -/
theorem C2_counterexample :
    build_generic_query "dim_products" "total_net_sales" none none none [] none ≠
      "Error: Metric \x27total_net_sales\x27 not supported. Available metrics: [\x27product_count\x27, \x27avg_gst_rate\x27]" := by
  decide

/-- Claim C2 as amended: for every metric name absent from a table's metrics
map, `build_sales_query` (for `fct_sales`) returns
`Error: Metric \x27m\x27 not supported. Available metrics: [...]` and
`build_generic_query` (for each of the four registered tables) returns
`Error: Metric \x27m\x27 not supported for t. Available metrics: [...]`, the
bracketed list holding exactly that table's metric names; no exception is
possible since the builders are total functions into strings. -/
theorem C2_metric_error_messages (m : String) (gb sd ed mo : Option String)
    (fs : List (String × FilterValue)) (lim : Option Int) :
    (alookup m fct_sales_semantic.metrics = none →
      build_sales_query m gb sd ed mo fs =
        "Error: Metric \x27" ++ m ++
          "\x27 not supported. Available metrics: [\x27total_net_sales\x27, \x27total_gross_sales\x27, \x27total_quantity\x27, \x27average_discount\x27, \x27total_gst\x27, \x27total_delivery_charges\x27, \x27average_order_value\x27, \x27total_discount_amount\x27, \x27transaction_count\x27, \x27total_revenue\x27]") ∧
    (alookup m fct_sales_semantic.metrics = none →
      build_generic_query "fct_sales" m gb sd ed fs lim =
        "Error: Metric \x27" ++ m ++
          "\x27 not supported for fct_sales. Available metrics: [\x27total_net_sales\x27, \x27total_gross_sales\x27, \x27total_quantity\x27, \x27average_discount\x27, \x27total_gst\x27, \x27total_delivery_charges\x27, \x27average_order_value\x27, \x27total_discount_amount\x27, \x27transaction_count\x27, \x27total_revenue\x27]") ∧
    (alookup m fct_customer_segments_semantic.metrics = none →
      build_generic_query "fct_customer_segments" m gb sd ed fs lim =
        "Error: Metric \x27" ++ m ++
          "\x27 not supported for fct_customer_segments. Available metrics: [\x27total_customers\x27, \x27avg_revenue_per_customer\x27, \x27avg_order_count\x27, \x27avg_days_since_purchase\x27, \x27customer_profitability\x27, \x27total_customer_revenue\x27]") ∧
    (alookup m dim_products_semantic.metrics = none →
      build_generic_query "dim_products" m gb sd ed fs lim =
        "Error: Metric \x27" ++ m ++
          "\x27 not supported for dim_products. Available metrics: [\x27product_count\x27, \x27avg_gst_rate\x27]") ∧
    (alookup m stg_bitcoin_semantic.metrics = none →
      build_generic_query "stg_bitcoin" m gb sd ed fs lim =
        "Error: Metric \x27" ++ m ++
          "\x27 not supported for stg_bitcoin. Available metrics: [\x27avg_price\x27, \x27max_price\x27, \x27min_price\x27, \x27current_price\x27, \x27price_volatility\x27, \x27price_records\x27, \x27avg_change\x27, \x27max_change\x27, \x27min_change\x27]") := by
  refine ⟨?_, ?_, ?_, ?_, ?_⟩
  · intro h
    unfold build_sales_query
    dsimp only
    rw [h]
    simp only [String.append_assoc]
    rfl
  · intro h
    unfold build_generic_query
    rw [show alookup "fct_sales" SEMANTIC_MODELS = some fct_sales_semantic from rfl]
    dsimp only
    rw [h]
    simp only [String.append_assoc]
    rfl
  · intro h
    unfold build_generic_query
    rw [show alookup "fct_customer_segments" SEMANTIC_MODELS =
      some fct_customer_segments_semantic from rfl]
    dsimp only
    rw [h]
    simp only [String.append_assoc]
    rfl
  · intro h
    unfold build_generic_query
    rw [show alookup "dim_products" SEMANTIC_MODELS = some dim_products_semantic from rfl]
    dsimp only
    rw [h]
    simp only [String.append_assoc]
    rfl
  · intro h
    unfold build_generic_query
    rw [show alookup "stg_bitcoin" SEMANTIC_MODELS = some stg_bitcoin_semantic from rfl]
    dsimp only
    rw [h]
    simp only [String.append_assoc]
    rfl

/-- Witness for C2 at the concrete unregistered metric name `bogus`. -/
theorem C2_witness :
    build_sales_query "bogus" none none none none [] =
      "Error: Metric \x27bogus\x27 not supported. Available metrics: [\x27total_net_sales\x27, \x27total_gross_sales\x27, \x27total_quantity\x27, \x27average_discount\x27, \x27total_gst\x27, \x27total_delivery_charges\x27, \x27average_order_value\x27, \x27total_discount_amount\x27, \x27transaction_count\x27, \x27total_revenue\x27]" ∧
    build_generic_query "fct_sales" "bogus" none none none [] none =
      "Error: Metric \x27bogus\x27 not supported for fct_sales. Available metrics: [\x27total_net_sales\x27, \x27total_gross_sales\x27, \x27total_quantity\x27, \x27average_discount\x27, \x27total_gst\x27, \x27total_delivery_charges\x27, \x27average_order_value\x27, \x27total_discount_amount\x27, \x27transaction_count\x27, \x27total_revenue\x27]" ∧
    build_generic_query "fct_customer_segments" "bogus" none none none [] none =
      "Error: Metric \x27bogus\x27 not supported for fct_customer_segments. Available metrics: [\x27total_customers\x27, \x27avg_revenue_per_customer\x27, \x27avg_order_count\x27, \x27avg_days_since_purchase\x27, \x27customer_profitability\x27, \x27total_customer_revenue\x27]" ∧
    build_generic_query "dim_products" "bogus" none none none [] none =
      "Error: Metric \x27bogus\x27 not supported for dim_products. Available metrics: [\x27product_count\x27, \x27avg_gst_rate\x27]" ∧
    build_generic_query "stg_bitcoin" "bogus" none none none [] none =
      "Error: Metric \x27bogus\x27 not supported for stg_bitcoin. Available metrics: [\x27avg_price\x27, \x27max_price\x27, \x27min_price\x27, \x27current_price\x27, \x27price_volatility\x27, \x27price_records\x27, \x27avg_change\x27, \x27max_change\x27, \x27min_change\x27]" :=
  ⟨(C2_metric_error_messages "bogus" none none none none [] none).1 rfl,
   (C2_metric_error_messages "bogus" none none none none [] none).2.1 rfl,
   (C2_metric_error_messages "bogus" none none none none [] none).2.2.1 rfl,
   (C2_metric_error_messages "bogus" none none none none [] none).2.2.2.1 rfl,
   (C2_metric_error_messages "bogus" none none none none [] none).2.2.2.2 rfl⟩

/-- Claim C3, counterexample: `get_table_schema_info` never consults the
warehouse client (its source body only reads the semantic registry), so with
the client uninitialized it does not return the not-configured literal — for a
registered table it returns the schema listing. -/
theorem C3_counterexample :
    get_table_schema_info "fct_sales" ≠
      "Error: Snowflake client not configured. Please check connection settings." := by
  decide

/-- Claim C3 as amended: with the warehouse client uninitialized (`none`), the
three client-using tools `run_sales_query`, `run_generic_query` and
`test_snowflake_connection` each return exactly the not-configured literal and
nothing else, for all arguments; `get_table_schema_info` ignores the client
entirely and returns its registry-derived text instead. -/
theorem C3_uninitialized_client_behavior :
    (∀ metric gb sd ed mo af, run_sales_query none metric gb sd ed mo af =
      "Error: Snowflake client not configured. Please check connection settings.") ∧
    (∀ tname metric gb sd ed af lim, run_generic_query none tname metric gb sd ed af lim =
      "Error: Snowflake client not configured. Please check connection settings.") ∧
    test_snowflake_connection none =
      "Error: Snowflake client not configured. Please check connection settings." ∧
    get_table_schema_info "fct_sales" ≠
      "Error: Snowflake client not configured. Please check connection settings." := by
  exact ⟨fun _ _ _ _ _ _ => rfl, fun _ _ _ _ _ _ _ => rfl, rfl, by decide⟩

/-- Claim C4: for every table name not in the registry, `build_generic_query`
returns the error string listing exactly the four registered table names in
registry order. -/
theorem C4_unknown_table_error (tname metric : String) (gb sd ed : Option String)
    (fs : List (String × FilterValue)) (lim : Option Int)
    (h : alookup tname SEMANTIC_MODELS = none) :
    build_generic_query tname metric gb sd ed fs lim =
      "Error: Table \x27" ++ tname ++
        "\x27 not found. Available tables: [\x27fct_sales\x27, \x27fct_customer_segments\x27, \x27dim_products\x27, \x27stg_bitcoin\x27]" := by
  unfold build_generic_query
  rw [h]
  simp only [String.append_assoc]
  rfl

/-- Witness for C4 at the concrete unregistered table name `not_a_table`. -/
theorem C4_witness :
    build_generic_query "not_a_table" "x" none none none [] none =
      "Error: Table \x27not_a_table\x27 not found. Available tables: [\x27fct_sales\x27, \x27fct_customer_segments\x27, \x27dim_products\x27, \x27stg_bitcoin\x27]" :=
  C4_unknown_table_error "not_a_table" "x" none none none [] none rfl

/-- Filters exercising all three rendering branches, used by the C5 witness. -/
def demoFilters : List (String × FilterValue) :=
  [("coupon_status", FilterValue.str "Used"),
   ("product_sku", FilterValue.list ["SKU1", "SKU2"]),
   ("quantity", FilterValue.other "5")]

/-- Claim C5: for every filters mapping, the builders' shared WHERE-clause
construction renders a string value as `col = \x27value\x27`, a list value as
`col IN (\x27v1\x27, \x27v2\x27, ...)` with each element quoted, and any other value
unquoted as `col = value`; and in both builders the rendered predicates are
joined by ` AND ` after the `WHERE ` keyword. -/
theorem C5_filter_rendering (fs : List (String × FilterValue)) :
    filterClauses fs = fs.map (fun cv =>
      match cv.2 with
      | FilterValue.str v => cv.1 ++ " = \x27" ++ v ++ "\x27"
      | FilterValue.list vs =>
          cv.1 ++ " IN (\x27" ++ String.intercalate "\x27, \x27" vs ++ "\x27)"
      | FilterValue.other v => cv.1 ++ " = " ++ v) ∧
    (fs ≠ [] →
      build_sales_query "total_revenue" none none none none fs =
        "SELECT SUM(total_amount) AS total_revenue\nFROM fct_sales\nWHERE " ++
          String.intercalate " AND " (fs.map renderFilter) ∧
      build_generic_query "dim_products" "product_count" none none none fs none =
        "SELECT COUNT(DISTINCT product_sku) AS product_count\nFROM dim_products\nWHERE " ++
          String.intercalate " AND " (fs.map renderFilter)) := by
  constructor
  · have hrf : ∀ cv : String × FilterValue, renderFilter cv =
        (match cv.2 with
         | FilterValue.str v => cv.1 ++ " = \x27" ++ v ++ "\x27"
         | FilterValue.list vs =>
             cv.1 ++ " IN (\x27" ++ String.intercalate "\x27, \x27" vs ++ "\x27)"
         | FilterValue.other v => cv.1 ++ " = " ++ v) := by
      intro cv
      rcases cv with ⟨c, v⟩
      cases v <;> rfl
    unfold filterClauses
    exact List.map_congr_left (fun cv _ => hrf cv)
  · intro hne
    rcases fs with _ | ⟨hd, tl⟩
    · exact absurd rfl hne
    · exact ⟨rfl, rfl⟩

/-- Witness for C5 at filters covering all three branches. -/
theorem C5_witness :
    demoFilters ≠ [] ∧
    build_sales_query "total_revenue" none none none none demoFilters =
      "SELECT SUM(total_amount) AS total_revenue\nFROM fct_sales\nWHERE coupon_status = \x27Used\x27 AND product_sku IN (\x27SKU1\x27, \x27SKU2\x27) AND quantity = 5" ∧
    build_generic_query "dim_products" "product_count" none none none demoFilters none =
      "SELECT COUNT(DISTINCT product_sku) AS product_count\nFROM dim_products\nWHERE coupon_status = \x27Used\x27 AND product_sku IN (\x27SKU1\x27, \x27SKU2\x27) AND quantity = 5" :=
  ⟨by decide,
   ((C5_filter_rendering demoFilters).2 (by decide)).1,
   ((C5_filter_rendering demoFilters).2 (by decide)).2⟩

/-- Claim C6, counterexample: over the simulated 181-second run with a
30-second loop period, Bitcoin is fetched at t = 0, 30, ..., 180, which is 7
times, not 6 — the loop body fetches before its first sleep. -/
theorem C6_counterexample : ¬ ((producerRun 181 30).bitcoinFetches.length = 6) := by
  decide

/-- Claim C6 as amended: news is attempted only when at least 90 seconds have
elapsed since the last news fetch (gating step property), and over the
simulated 181-second run with a 30-second loop period Bitcoin is fetched 7
times (at t = 0, 30, ..., 180) while news is fetched exactly twice, at t = 90
and t = 180. -/
theorem C6_amended_cadence :
    (producerRun 181 30).bitcoinFetches = [0, 30, 60, 90, 120, 150, 180] ∧
    (producerRun 181 30).newsFetches = [90, 180] ∧
    ∀ (s : ProducerState) (t : Nat),
      90 ≤ t - s.lastNewsFetch ∨ (producerStep s t).newsFetches = s.newsFetches := by
  refine ⟨by decide, by decide, ?_⟩
  intro s t
  by_cases h : 90 ≤ t - s.lastNewsFetch
  · exact Or.inl h
  · refine Or.inr ?_
    unfold producerStep
    rw [if_neg h]

/-- MD5 sanity check against the RFC 1321 test vector for the empty string. -/
theorem md5Hex_empty_vector : md5Hex "" = "d41d8cd98f00b204e9800998ecf8427e" := by
  decide

/-- MD5 sanity check against the RFC 1321 test vector for `abc`. -/
theorem md5Hex_abc_vector : md5Hex "abc" = "900150983cd24fb0d6963f7d28e17f72" := by
  decide

/-- Claim C7: the document id generator is deterministic on filesystem
metadata — it is exactly the MD5 hex digest of `<path>_<mtime>_<size>`, so any
two stats with equal path, mtime and size give the identical id; and at a
concrete file, bumping only the modification time changes the id (the two
digests are computed in full and differ). -/
theorem C7_document_id :
    (∀ path mtime size, generate_document_id path mtime size =
      md5Hex (path ++ "_" ++ mtime ++ "_" ++ size)) ∧
    generate_document_id "report.pdf" "1700000000.0" "1024" =
      "206cd7cf1ac885461ce8ceea6522920f" ∧
    generate_document_id "report.pdf" "1700000500.0" "1024" =
      "95b010587dd29a9cbfbc493bfc5ca587" ∧
    generate_document_id "report.pdf" "1700000000.0" "1024" ≠
      generate_document_id "report.pdf" "1700000500.0" "1024" := by
  refine ⟨fun _ _ _ => rfl, by decide, by decide, by decide⟩

/-- A dataframe with one column of each dtype named in claim C8; the text
column's longest string has 12 characters. -/
def demoTypedDf : PdDataFrame where
  nrows := 3
  cols := [
    ⟨"description", PandasDtype.object, [some "hello", some "abcdefghijkl", some "hi"]⟩,
    ⟨"quantity", PandasDtype.int64, [some "1", some "2", some "3"]⟩,
    ⟨"avg_price", PandasDtype.float64, [some "9.5", some "3.25", some "7.0"]⟩,
    ⟨"is_active", PandasDtype.bool, [some "True", some "False", some "True"]⟩]

/-- A dataframe with one column holding a null and one without, for the DDL
nullability markers. -/
def demoNullDf : PdDataFrame where
  nrows := 2
  cols := [
    ⟨"notes", PandasDtype.object, [some "x", none]⟩,
    ⟨"amount", PandasDtype.int64, [some "1", some "2"]⟩]

/-- Claim C8: schema inference maps the text column with observed maximum
string length 12 to `VARCHAR(12)`, the integer column to `NUMBER`, the float
column to `FLOAT` and the boolean column to `BOOLEAN`; and for every column
the generated DDL line carries the marker `NULL` exactly when some cell is
null and `NOT NULL` when none is (shown both in general, per column, and on a
concrete generated DDL; note the `VARCHAR(3)` in it comes from the null cell
rendering as the 3-character string `nan` under `astype(str)`). -/
theorem C8_schema_inference :
    ((analyze_schema demoTypedDf "sales").columns.map (fun p => p.2.snowflake_type) =
      ["VARCHAR(12)", "NUMBER", "FLOAT", "BOOLEAN"]) ∧
    (∀ c : PdColumn, ddlColumnLine (analyzeColumn c) =
      "    " ++ normalizeColName c.name ++ " " ++ snowflakeType c ++ " " ++
        (if c.cells.any (fun x => x.isNone) then "NULL" else "NOT NULL")) ∧
    generate_snowflake_ddl (analyze_schema demoNullDf "orders") =
      "CREATE OR REPLACE TABLE ORDERS (\n    NOTES VARCHAR(3) NULL,\n    AMOUNT NUMBER NOT NULL\n);" := by
  refine ⟨by decide, ?_, by decide⟩
  intro c
  by_cases h : c.cells.any (fun x => x.isNone) = true
  · have h2 : 0 < nullCount c := by
      rw [nullCount, List.countP_pos_iff]
      simpa using List.any_eq_true.mp h
    simp only [ddlColumnLine, analyzeColumn]
    rw [if_pos h2, if_pos h]
  · have h2 : ¬ 0 < nullCount c := by
      rw [nullCount, List.countP_pos_iff]
      intro hex
      exact h (List.any_eq_true.mpr (by simpa using hex))
    simp only [ddlColumnLine, analyzeColumn]
    rw [if_neg h2, if_neg h]

/-- Claim C9: `delete_documents` called with a (truthy) `doc_id` and
`delete_all = False` always returns the failure result naming the
unimplemented feature, performs no action on the vector store, and — being a
total function into a result value, with the early return preceding any store
call — cannot raise, whatever the store's `delete_all` outcome would have
been. -/
theorem C9_delete_by_id_unimplemented (outcome : Except String Bool) (d ns : String)
    (hd : d ≠ "") :
    delete_documents outcome (some d) ns false =
      ({ success := false,
         message := "Individual document deletion requires additional implementation" },
        StoreAction.noAction) := by
  have ht : strTruthy (some d) = true := by
    show (!d.isEmpty) = true
    cases hb : d.isEmpty
    · rfl
    · exact absurd ((String.isEmpty_iff d).mp hb) hd
  unfold delete_documents
  rw [if_neg (by decide), if_pos ht]

/-- Witness for C9 at the concrete document id `abc123`. -/
theorem C9_witness :
    delete_documents (Except.ok true) (some "abc123") "" false =
      ({ success := false,
         message := "Individual document deletion requires additional implementation" },
        StoreAction.noAction) :=
  C9_delete_by_id_unimplemented (Except.ok true) "abc123" "" (by decide)

/-- Claim C10: for every registered table whose semantic model has no
`date_column` entry, `build_generic_query` silently ignores a supplied date
range — the result is identical to the call without dates — and, being a
total function, never fails with a missing-key error; the generic builder has
no month parameter in its signature at all. -/
theorem C10_dateless_table_ignores_dates (tname : String) (model : SemanticModel)
    (htab : alookup tname SEMANTIC_MODELS = some model) (hdc : model.dateColumn = none)
    (metric : String) (gb : Option String) (sd ed : String)
    (fs : List (String × FilterValue)) (lim : Option Int) :
    build_generic_query tname metric gb (some sd) (some ed) fs lim =
      build_generic_query tname metric gb none none fs lim := by
  unfold build_generic_query
  rw [htab]
  dsimp only
  rw [hdc]

/-- Witness for C10 at `dim_products`, the registered table without a
`date_column`, with a concrete date range. -/
theorem C10_witness :
    build_generic_query "dim_products" "product_count" (some "product_group")
        (some "2024-01-01") (some "2024-12-31") [] (some 100) =
      build_generic_query "dim_products" "product_count" (some "product_group")
        none none [] (some 100) :=
  C10_dateless_table_ignores_dates "dim_products" dim_products_semantic rfl rfl
    "product_count" (some "product_group") "2024-01-01" "2024-12-31" [] (some 100)

end MarketingPipeline
